import Mathlib

/-!
Shallow embedding of the movement-sourced ledger engine of `src/main.py`
(a warehouse/cash bookkeeping bot).  Decimal columns (`Numeric(18,3)` /
`Numeric(18,2)`) are modelled as `ℚ`, which represents every such decimal
exactly and makes all arithmetic in the source (sums, negation, products)
exact.  Display-only columns (timestamps, notes, payment-method strings,
`direction` on movements) are omitted; every column the business logic
reads or the claims mention is kept.
-/

namespace Sklad

/-- Document type of a movement back-reference (`doc_type` column). -/
inductive DocType
  | sale
  | income
deriving DecidableEq, Repr

/-- Account classifier (`account_type` column): cash, bank or IP account.
The source normalises any other string to `"cash"` before use, so the
enum is exhaustive. -/
inductive AccountType
  | cash
  | bank
  | ip
deriving DecidableEq, Repr

/-- `account_type in ("bank", "ip")` from the source. -/
def isBankAcct : AccountType → Bool
  | AccountType.bank => true
  | AccountType.ip => true
  | AccountType.cash => false

/-- Row of `stock_movements` (class `StockMovement`, src/main.py:71).
`qty_kg` is the signed delta: positive for income, negative for sale. -/
structure StockMovement where
  warehouse_id : Nat
  product_id : Nat
  qty_kg : ℚ
  doc_type : DocType
  doc_id : Nat
deriving DecidableEq, Repr

/-- Row of `money_movements` (class `MoneyMovement`, src/main.py:88).
`amount` is signed: positive in, negative out. -/
structure MoneyMovement where
  account_type : AccountType
  bank_id : Option Nat
  amount : ℚ
  doc_type : DocType
  doc_id : Nat
deriving DecidableEq, Repr

/-- Row of the materialized `stocks` table (class `Stock`, src/main.py:114). -/
structure Stock where
  warehouse_id : Nat
  product_id : Nat
  qty_kg : ℚ
deriving DecidableEq, Repr

/-- Row of the materialized `money_ledger` table (class `MoneyLedger`,
src/main.py:125).  `direction_in` models `direction == "in"`; `amount`
is stored as an absolute value there. -/
structure MoneyLedgerRow where
  direction_in : Bool
  account_type : AccountType
  bank_id : Option Nat
  amount : ℚ
deriving DecidableEq, Repr

/-- Row of `sales` (class `Sale`, src/main.py:142). -/
structure Sale where
  id : Nat
  customer_name : String
  customer_phone : String
  warehouse_id : Nat
  product_id : Nat
  qty_kg : ℚ
  price_per_kg : ℚ
  total_amount : ℚ
  delivery_cost : ℚ
  is_paid : Bool
  account_type : AccountType
  bank_id : Option Nat
deriving DecidableEq, Repr

/-- Row of `incomes` (class `Income`, src/main.py:170). -/
structure Income where
  id : Nat
  supplier_name : String
  supplier_phone : String
  warehouse_id : Nat
  product_id : Nat
  qty_kg : ℚ
  price_per_kg : ℚ
  total_amount : ℚ
  delivery_cost : ℚ
  add_money_entry : Bool
  account_type : AccountType
  bank_id : Option Nat
deriving DecidableEq, Repr

/-- Row of `debtors` (class `Debtor`, src/main.py:198).  Note the source
links a Debtor to its Sale only through the copied value columns
(name, phone, amounts), never through a foreign key. -/
structure Debtor where
  id : Nat
  customer_name : String
  customer_phone : String
  warehouse_name : String
  product_name : String
  qty_kg : ℚ
  price_per_kg : ℚ
  total_amount : ℚ
  delivery_cost : ℚ
  is_paid : Bool
deriving DecidableEq, Repr

/-- The whole database state: the document tables, the two append-only
movement logs, and the two materialized views, plus autoincrement
counters for the primary keys the logic reads back (`sale.id`,
`inc.id`, debtor ids). -/
structure DB where
  sales : List Sale
  incomes : List Income
  debtors : List Debtor
  stockMovements : List StockMovement
  moneyMovements : List MoneyMovement
  stocks : List Stock
  moneyLedger : List MoneyLedgerRow
  nextSaleId : Nat
  nextIncomeId : Nat
  nextDebtorId : Nat
deriving DecidableEq, Repr

/-- A freshly created (empty) database; autoincrement ids start at 1. -/
def emptyDB : DB :=
  { sales := []
    incomes := []
    debtors := []
    stockMovements := []
    moneyMovements := []
    stocks := []
    moneyLedger := []
    nextSaleId := 1
    nextIncomeId := 1
    nextDebtorId := 1 }

/-- `SELECT coalesce(sum(qty_kg), 0) FROM stock_movements WHERE
warehouse_id = w AND product_id = p` — the aggregate the source uses both
for the sufficiency check (src/main.py:2662) and inside
`recalc_stocks` (src/main.py:817). -/
def sumQty : List StockMovement → Nat → Nat → ℚ
  | [], _, _ => 0
  | m :: rest, w, p =>
      (if m.warehouse_id = w ∧ m.product_id = p then m.qty_kg else 0) + sumQty rest w p

/-- Group keys of a stock-movement list, in first-occurrence order
(the distinct `(warehouse_id, product_id)` pairs of the GROUP BY). -/
def stockKeys (mvs : List StockMovement) : List (Nat × Nat) :=
  (mvs.map (fun m => (m.warehouse_id, m.product_id))).dedup

/-- `recalc_stocks` (src/main.py:811): delete every `stocks` row, then
insert one row per `(warehouse_id, product_id)` group of
`stock_movements` holding the group's summed `qty_kg`. -/
def recalc_stocks (mvs : List StockMovement) : List Stock :=
  (stockKeys mvs).map (fun k => { warehouse_id := k.1, product_id := k.2, qty_kg := sumQty mvs k.1 k.2 })

/-- Materialized stock balance for a pair: the `qty_kg` of the first
`stocks` row with that key (cf. `get_stock_row`, src/main.py:799), or 0
when no row exists. -/
def stockBalance : List Stock → Nat → Nat → ℚ
  | [], _, _ => 0
  | r :: rest, w, p =>
      if r.warehouse_id = w ∧ r.product_id = p then r.qty_kg else stockBalance rest w p

/-- `recalc_money_ledger` (src/main.py:827): rebuild `money_ledger` from
`money_movements`, one ledger row per movement, direction from the sign
and `amount = abs(amount)`. -/
def recalc_money_ledger (mms : List MoneyMovement) : List MoneyLedgerRow :=
  mms.map (fun mv =>
    { direction_in := decide ((0 : ℚ) ≤ mv.amount)
      account_type := mv.account_type
      bank_id := mv.bank_id
      amount := abs mv.amount })

/-- Cash balance as displayed by `show_money` (src/main.py:938): the sum
of `money_movements.amount` over rows with `account_type = "cash"`. -/
def cashBalance (mms : List MoneyMovement) : ℚ :=
  ((mms.filter (fun m => decide (m.account_type = AccountType.cash))).map (fun m => m.amount)).sum

/-- Input fields of the sale wizard as handed to `sale_confirm`
(already range-checked by the dialog steps, as the source guarantees). -/
structure SaleFields where
  customer_name : String
  customer_phone : String
  warehouse_id : Nat
  product_id : Nat
  warehouse_name : String
  product_name : String
  qty : ℚ
  price : ℚ
  delivery : ℚ
  is_paid : Bool
  account_type : AccountType
  bank_id : Option Nat
deriving DecidableEq, Repr

/-- Input fields of the income wizard as handed to `inc_confirm`. -/
structure IncomeFields where
  supplier_name : String
  supplier_phone : String
  warehouse_id : Nat
  product_id : Nat
  qty : ℚ
  price : ℚ
  delivery : ℚ
  add_money_entry : Bool
  account_type : AccountType
  bank_id : Option Nat
deriving DecidableEq, Repr

/-- Account normalisation shared by `sale_confirm` (src/main.py:2640) and
`inc_confirm` (src/main.py:3114): for `cash` the bank id is dropped; for
`bank`/`ip` a missing bank id aborts the whole handler before any write
(`none` here models that early return). -/
def normAccount : AccountType → Option Nat → Option (Option Nat)
  | AccountType.cash, _ => some none
  | _, none => none
  | _, some b => some (some b)

/-- Outcome of `sale_confirm`. -/
inductive SaleOutcome
  | ok (id : Nat)
  | insufficientStock (available : ℚ)
  | bankMissing
deriving DecidableEq, Repr

/-- Outcome of `inc_confirm`. -/
inductive IncomeOutcome
  | ok (id : Nat)
  | bankMissing
deriving DecidableEq, Repr

/-- Outcome of the delete handlers.  The source has no other branch: in
particular `cb_inc_del` has no rollback-blocked outcome at all. -/
inductive DeleteOutcome
  | ok
  | notFound
deriving DecidableEq, Repr

/-- Outcome of the settle handlers. -/
inductive SettleOutcome
  | ok
  | alreadySettled
  | notFound
deriving DecidableEq, Repr

/-- `sale_confirm` (src/main.py:2609), the confirmed branch: normalise
the account, sum the movement log for the pair and fail with the
available quantity when `cur_qty < qty` (src/main.py:2667) without any
write; otherwise insert the Sale row with `total = qty * price`, append
one StockMovement with delta `-qty`, then either one MoneyMovement
`+total` (paid) or one open Debtor row mirroring the sale (unpaid), and
rebuild both materialized views. -/
def sale_confirm (db : DB) (f : SaleFields) : SaleOutcome × DB :=
  match normAccount f.account_type f.bank_id with
  | none => (SaleOutcome.bankMissing, db)
  | some nb =>
      let cur := sumQty db.stockMovements f.warehouse_id f.product_id
      if cur < f.qty then (SaleOutcome.insufficientStock cur, db)
      else
        let total := f.qty * f.price
        let sid := db.nextSaleId
        let sale : Sale :=
          { id := sid
            customer_name := f.customer_name
            customer_phone := f.customer_phone
            warehouse_id := f.warehouse_id
            product_id := f.product_id
            qty_kg := f.qty
            price_per_kg := f.price
            total_amount := total
            delivery_cost := f.delivery
            is_paid := f.is_paid
            account_type := if f.is_paid then f.account_type else AccountType.cash
            bank_id := if f.is_paid && isBankAcct f.account_type then nb else none }
        let mvs := db.stockMovements ++
          [{ warehouse_id := f.warehouse_id, product_id := f.product_id, qty_kg := -f.qty,
             doc_type := DocType.sale, doc_id := sid }]
        let mms :=
          if f.is_paid then
            db.moneyMovements ++
              [{ account_type := f.account_type
                 bank_id := if isBankAcct f.account_type then nb else none
                 amount := total
                 doc_type := DocType.sale
                 doc_id := sid }]
          else db.moneyMovements
        let debtors :=
          if f.is_paid then db.debtors
          else
            db.debtors ++
              [{ id := db.nextDebtorId
                 customer_name := f.customer_name
                 customer_phone := f.customer_phone
                 warehouse_name := f.warehouse_name
                 product_name := f.product_name
                 qty_kg := f.qty
                 price_per_kg := f.price
                 total_amount := total
                 delivery_cost := f.delivery
                 is_paid := false }]
        (SaleOutcome.ok sid,
          { db with
            sales := db.sales ++ [sale]
            debtors := debtors
            stockMovements := mvs
            moneyMovements := mms
            stocks := recalc_stocks mvs
            moneyLedger := recalc_money_ledger mms
            nextSaleId := sid + 1
            nextDebtorId := if f.is_paid then db.nextDebtorId else db.nextDebtorId + 1 })

/-- `inc_confirm` (src/main.py:3083), the confirmed branch: no stock
check of any kind; insert the Income row with `total = qty * price`,
append one StockMovement with delta `+qty`, one MoneyMovement `-total`
iff `add_money_entry`, and rebuild both materialized views. -/
def inc_confirm (db : DB) (f : IncomeFields) : IncomeOutcome × DB :=
  match normAccount f.account_type f.bank_id with
  | none => (IncomeOutcome.bankMissing, db)
  | some nb =>
      let total := f.qty * f.price
      let iid := db.nextIncomeId
      let inc : Income :=
        { id := iid
          supplier_name := f.supplier_name
          supplier_phone := f.supplier_phone
          warehouse_id := f.warehouse_id
          product_id := f.product_id
          qty_kg := f.qty
          price_per_kg := f.price
          total_amount := total
          delivery_cost := f.delivery
          add_money_entry := f.add_money_entry
          account_type := if f.add_money_entry then f.account_type else AccountType.cash
          bank_id := if f.add_money_entry && isBankAcct f.account_type then nb else none }
      let mvs := db.stockMovements ++
        [{ warehouse_id := f.warehouse_id, product_id := f.product_id, qty_kg := f.qty,
           doc_type := DocType.income, doc_id := iid }]
      let mms :=
        if f.add_money_entry then
          db.moneyMovements ++
            [{ account_type := f.account_type
               bank_id := if isBankAcct f.account_type then nb else none
               amount := -total
               doc_type := DocType.income
               doc_id := iid }]
        else db.moneyMovements
      (IncomeOutcome.ok iid,
        { db with
          incomes := db.incomes ++ [inc]
          stockMovements := mvs
          moneyMovements := mms
          stocks := recalc_stocks mvs
          moneyLedger := recalc_money_ledger mms
          nextIncomeId := iid + 1 })

/-- `cb_sale_del` (src/main.py:1258): delete the sale's stock and money
movements and the Sale row, then rebuild both materialized views.  The
sale's Debtor row (if any) is left untouched. -/
def cb_sale_del (db : DB) (sale_id : Nat) : DeleteOutcome × DB :=
  match db.sales.find? (fun s => decide (s.id = sale_id)) with
  | none => (DeleteOutcome.notFound, db)
  | some _ =>
      let mvs := db.stockMovements.filter
        (fun m => decide (¬ (m.doc_type = DocType.sale ∧ m.doc_id = sale_id)))
      let mms := db.moneyMovements.filter
        (fun m => decide (¬ (m.doc_type = DocType.sale ∧ m.doc_id = sale_id)))
      (DeleteOutcome.ok,
        { db with
          sales := db.sales.filter (fun s => decide (¬ s.id = sale_id))
          stockMovements := mvs
          moneyMovements := mms
          stocks := recalc_stocks mvs
          moneyLedger := recalc_money_ledger mms })

/-- `cb_inc_del` (src/main.py:1324): delete the income's stock and money
movements and the Income row, then rebuild both materialized views.
There is no check that later sales still leave the resulting balance
non-negative — deletion is unconditional. -/
def cb_inc_del (db : DB) (income_id : Nat) : DeleteOutcome × DB :=
  match db.incomes.find? (fun i => decide (i.id = income_id)) with
  | none => (DeleteOutcome.notFound, db)
  | some _ =>
      let mvs := db.stockMovements.filter
        (fun m => decide (¬ (m.doc_type = DocType.income ∧ m.doc_id = income_id)))
      let mms := db.moneyMovements.filter
        (fun m => decide (¬ (m.doc_type = DocType.income ∧ m.doc_id = income_id)))
      (DeleteOutcome.ok,
        { db with
          incomes := db.incomes.filter (fun i => decide (¬ i.id = income_id))
          stockMovements := mvs
          moneyMovements := mms
          stocks := recalc_stocks mvs
          moneyLedger := recalc_money_ledger mms })

/-- The debtor lookup of `cb_sale_paid_id` (src/main.py:1240): mark paid
the first unpaid Debtor whose `(customer_name, customer_phone,
total_amount)` equal the sale's (there is no foreign key). -/
def markFirstDebtorPaid (name phone : String) (total : ℚ) : List Debtor → List Debtor
  | [] => []
  | d :: rest =>
      if d.customer_name = name ∧ d.customer_phone = phone ∧
          d.total_amount = total ∧ d.is_paid = false then
        { d with is_paid := true } :: rest
      else d :: markFirstDebtorPaid name phone total rest

/-- `cb_sale_paid_id` (src/main.py:1210), the settle path that records
money: if the sale is already paid answer "already paid" and change
nothing; otherwise set `Sale.is_paid`, add one `money_ledger` row for
`total_amount` directly (note: a ledger-cache row, not a
`money_movements` row), and mark the first matching unpaid Debtor paid.
No movement-log write and no recalc happens here. -/
def cb_sale_paid_id (db : DB) (sale_id : Nat) : SettleOutcome × DB :=
  match db.sales.find? (fun s => decide (s.id = sale_id)) with
  | none => (SettleOutcome.notFound, db)
  | some sale =>
      if sale.is_paid then (SettleOutcome.alreadySettled, db)
      else
        let bank_id := if isBankAcct sale.account_type then sale.bank_id else none
        (SettleOutcome.ok,
          { db with
            sales := db.sales.map
              (fun s => if s.id = sale_id then { s with is_paid := true } else s)
            moneyLedger := db.moneyLedger ++
              [{ direction_in := true, account_type := sale.account_type,
                 bank_id := bank_id, amount := sale.total_amount }]
            debtors := markFirstDebtorPaid sale.customer_name sale.customer_phone
              sale.total_amount db.debtors })

/-- `cb_deb_paid` (src/main.py:1390): the debtor-button settle path just
sets `is_paid = true` on the Debtor row — no already-paid guard, no
money entry of any kind. -/
def cb_deb_paid (db : DB) (debtor_id : Nat) : SettleOutcome × DB :=
  match db.debtors.find? (fun d => decide (d.id = debtor_id)) with
  | none => (SettleOutcome.notFound, db)
  | some _ =>
      (SettleOutcome.ok,
        { db with
          debtors := db.debtors.map
            (fun d => if d.id = debtor_id then { d with is_paid := true } else d) })

/-- `deb_confirm` (src/main.py:3357): the manual debtor wizard inserts a
standalone open Debtor row (total = qty * price) with no Sale behind it. -/
def deb_confirm (db : DB) (name phone wname pname : String) (qty price delivery : ℚ) : DB :=
  { db with
    debtors := db.debtors ++
      [{ id := db.nextDebtorId
         customer_name := name
         customer_phone := phone
         warehouse_name := wname
         product_name := pname
         qty_kg := qty
         price_per_kg := price
         total_amount := qty * price
         delivery_cost := delivery
         is_paid := false }]
    nextDebtorId := db.nextDebtorId + 1 }

/-- One core operation, as dispatched by the bot's handlers. -/
inductive Op
  | createSale (f : SaleFields)
  | createIncome (f : IncomeFields)
  | deleteSale (id : Nat)
  | deleteIncome (id : Nat)
  | settle (id : Nat)
deriving Repr

/-- The committed state after one operation (outcome discarded: a failed
operation leaves the state it returned, which the handlers keep equal to
the pre-state). -/
def applyOp (db : DB) : Op → DB
  | Op.createSale f => (sale_confirm db f).2
  | Op.createIncome f => (inc_confirm db f).2
  | Op.deleteSale i => (cb_sale_del db i).2
  | Op.deleteIncome i => (cb_inc_del db i).2
  | Op.settle i => (cb_sale_paid_id db i).2

/-- Run a sequence of core operations from the empty database. -/
def run (ops : List Op) : DB :=
  ops.foldl applyOp emptyDB

/-- Scenario 1 of the spec: income of 1000 kg at price 1 into
warehouse 1 / product 1, expense flag off. -/
def incF1000 : IncomeFields :=
  { supplier_name := "S"
    supplier_phone := "-"
    warehouse_id := 1
    product_id := 1
    qty := 1000
    price := 1
    delivery := 0
    add_money_entry := false
    account_type := AccountType.cash
    bank_id := none }

/-- Scenario 3 of the spec: unpaid cash sale of 300 kg at price 2 from
warehouse 1 / product 1 (total 600). -/
def saleF300u : SaleFields :=
  { customer_name := "A"
    customer_phone := "-"
    warehouse_id := 1
    product_id := 1
    warehouse_name := "W1"
    product_name := "Sugar"
    qty := 300
    price := 2
    delivery := 0
    is_paid := false
    account_type := AccountType.cash
    bank_id := none }

/-- A sale draining the whole 1000 kg balance (boundary case). -/
def saleF1000u : SaleFields :=
  { saleF300u with qty := 1000, price := 2 }

/-- State after scenario 1 (one income of 1000). -/
def dbInc : DB := (inc_confirm emptyDB incF1000).2

/-- State after scenarios 1 and 3 (income 1000, then unpaid sale 300). -/
def dbIncSale : DB := (sale_confirm dbInc saleF300u).2

/-- State after settling sale 1 of `dbIncSale` through the sale button. -/
def dbSettled : DB := (cb_sale_paid_id dbIncSale 1).2

/-- Operation sequence: income of 1000, unpaid sale of 300 against it,
then deletion of the income the sale drew from. -/
def negStockOps : List Op :=
  [Op.createIncome incF1000, Op.createSale saleF300u, Op.deleteIncome 1]

/-- Two-element movement logs that are permutations of each other. -/
def mvA : StockMovement :=
  { warehouse_id := 1, product_id := 1, qty_kg := 5, doc_type := DocType.income, doc_id := 1 }

/-- Second movement for the permutation witness. -/
def mvB : StockMovement :=
  { warehouse_id := 1, product_id := 1, qty_kg := -2, doc_type := DocType.sale, doc_id := 1 }

/-- Conservation invariant between the materialized `stocks` table and
the `stock_movements` log: every pair's balance row equals the pair's
summed deltas (a pair with no row reads as 0, matching a zero sum). -/
def stocksConsistent (db : DB) : Prop :=
  ∀ w p, stockBalance db.stocks w p = sumQty db.stockMovements w p

theorem sumQty_append (l₁ l₂ : List StockMovement) (w p : Nat) :
    sumQty (l₁ ++ l₂) w p = sumQty l₁ w p + sumQty l₂ w p := by
  induction l₁ with
  | nil => simp [sumQty]
  | cons m rest ih => simp [sumQty, ih]; ring

theorem sumQty_eq_zero {mvs : List StockMovement} {w p : Nat}
    (h : ∀ m ∈ mvs, ¬ (m.warehouse_id = w ∧ m.product_id = p)) :
    sumQty mvs w p = 0 := by
  induction mvs with
  | nil => rfl
  | cons m rest ih =>
      rw [sumQty, if_neg (h m (List.mem_cons_self m rest)),
        ih (fun x hx => h x (List.mem_cons_of_mem m hx))]
      simp

theorem stockBalance_map_keys (f : Nat × Nat → ℚ) (w p : Nat) :
    ∀ ks : List (Nat × Nat),
      stockBalance
        (ks.map fun k => { warehouse_id := k.1, product_id := k.2, qty_kg := f k }) w p =
        if (w, p) ∈ ks then f (w, p) else 0
  | [] => by simp [stockBalance]
  | k :: ks => by
      rw [List.map_cons]
      simp only [stockBalance]
      by_cases hk : k.1 = w ∧ k.2 = p
      · have hke : k = (w, p) := by
          obtain ⟨h1, h2⟩ := hk
          cases k
          simp_all
        rw [if_pos hk, if_pos (by rw [hke]; exact List.mem_cons_self _ _), hke]
      · have hne : ¬ (w, p) = k := by
          intro he
          exact hk ⟨by rw [← he], by rw [← he]⟩
        rw [if_neg hk, stockBalance_map_keys f w p ks]
        by_cases hmem : (w, p) ∈ ks
        · rw [if_pos hmem, if_pos (List.mem_cons_of_mem k hmem)]
        · rw [if_neg hmem, if_neg (by
            intro hc
            rcases List.mem_cons.mp hc with h | h
            · exact hne h
            · exact hmem h)]

theorem stockBalance_recalc (mvs : List StockMovement) (w p : Nat) :
    stockBalance (recalc_stocks mvs) w p = sumQty mvs w p := by
  unfold recalc_stocks
  rw [stockBalance_map_keys (fun k => sumQty mvs k.1 k.2) w p (stockKeys mvs)]
  by_cases h : (w, p) ∈ stockKeys mvs
  · rw [if_pos h]
  · rw [if_neg h]
    refine (sumQty_eq_zero ?_).symm
    intro m hm hkey
    refine h ?_
    unfold stockKeys
    rw [List.mem_dedup]
    exact List.mem_map.mpr ⟨m, hm, by rw [hkey.1, hkey.2]⟩

theorem sumQty_perm {m₁ m₂ : List StockMovement} (h : m₁.Perm m₂) (w p : Nat) :
    sumQty m₁ w p = sumQty m₂ w p := by
  induction h with
  | nil => rfl
  | cons x _ ih => simp only [sumQty, ih]
  | swap x y l => simp only [sumQty]; ring
  | trans _ _ ih₁ ih₂ => exact ih₁.trans ih₂

theorem applyOp_stocks (db : DB) (op : Op) :
    (applyOp db op).stocks = recalc_stocks (applyOp db op).stockMovements ∨
      ((applyOp db op).stocks = db.stocks ∧
        (applyOp db op).stockMovements = db.stockMovements) := by
  cases op with
  | createSale f =>
      simp only [applyOp, sale_confirm]
      cases hn : normAccount f.account_type f.bank_id with
      | none => exact Or.inr ⟨rfl, rfl⟩
      | some nb =>
          by_cases hq : sumQty db.stockMovements f.warehouse_id f.product_id < f.qty
          · simp only [if_pos hq]
            exact Or.inr ⟨trivial, trivial⟩
          · simp only [if_neg hq]
            exact Or.inl trivial
  | createIncome f =>
      simp only [applyOp, inc_confirm]
      cases hn : normAccount f.account_type f.bank_id with
      | none => exact Or.inr ⟨rfl, rfl⟩
      | some nb => exact Or.inl rfl
  | deleteSale i =>
      simp only [applyOp, cb_sale_del]
      cases hf : db.sales.find? (fun s => decide (s.id = i)) with
      | none => exact Or.inr ⟨rfl, rfl⟩
      | some s => exact Or.inl rfl
  | deleteIncome i =>
      simp only [applyOp, cb_inc_del]
      cases hf : db.incomes.find? (fun x => decide (x.id = i)) with
      | none => exact Or.inr ⟨rfl, rfl⟩
      | some x => exact Or.inl rfl
  | settle i =>
      simp only [applyOp, cb_sale_paid_id]
      cases hf : db.sales.find? (fun s => decide (s.id = i)) with
      | none => exact Or.inr ⟨rfl, rfl⟩
      | some s =>
          by_cases hp : s.is_paid = true
          · simp only [if_pos hp]
            exact Or.inr ⟨trivial, trivial⟩
          · simp only [if_neg hp]
            exact Or.inr ⟨trivial, trivial⟩

theorem stocksConsistent_applyOp {db : DB} (op : Op) (h : stocksConsistent db) :
    stocksConsistent (applyOp db op) := by
  rcases applyOp_stocks db op with heq | ⟨hs, hm⟩
  · intro w p
    rw [heq, stockBalance_recalc]
  · intro w p
    rw [hs, hm]
    exact h w p

theorem stocksConsistent_foldl (ops : List Op) :
    ∀ db, stocksConsistent db → stocksConsistent (ops.foldl applyOp db) := by
  induction ops with
  | nil => exact fun db h => h
  | cons op rest ih => exact fun db h => ih _ (stocksConsistent_applyOp op h)

theorem stocksConsistent_emptyDB : stocksConsistent emptyDB := by
  intro w p
  rfl

theorem stocksConsistent_run (ops : List Op) : stocksConsistent (run ops) :=
  stocksConsistent_foldl ops emptyDB stocksConsistent_emptyDB

/-- C2: after any sequence of core operations run from the empty
database, every (warehouse, product) pair's materialized `stocks` row
equals the sum of all `stock_movements` deltas for that pair. -/
theorem c2_conservation (ops : List Op) (w p : Nat) :
    stockBalance (run ops).stocks w p = sumQty (run ops).stockMovements w p :=
  stocksConsistent_run ops w p

/-- C9: `recalc_stocks` is order-insensitive — permuted movement logs
yield the same materialized balance for every (warehouse, product)
pair. -/
theorem c9_recalc_perm_invariant {m₁ m₂ : List StockMovement} (h : m₁.Perm m₂) (w p : Nat) :
    stockBalance (recalc_stocks m₁) w p = stockBalance (recalc_stocks m₂) w p := by
  rw [stockBalance_recalc, stockBalance_recalc]
  exact sumQty_perm h w p

/-- C9 witness: the two-element logs `[mvA, mvB]` and `[mvB, mvA]` are
permutations and get the same balance for pair (1, 1). -/
theorem c9_recalc_perm_invariant_witness :
    List.Perm [mvA, mvB] [mvB, mvA] ∧
      stockBalance (recalc_stocks [mvA, mvB]) 1 1 =
        stockBalance (recalc_stocks [mvB, mvA]) 1 1 :=
  ⟨List.Perm.swap mvB mvA [], c9_recalc_perm_invariant (List.Perm.swap mvB mvA []) 1 1⟩

/-- C3: when the requested quantity strictly exceeds the pair's current
stock (the movement-log sum the handler reads), `sale_confirm` returns
`InsufficientStock` carrying exactly the available quantity and the
returned state is the untouched pre-call state — every table, log and
balance included. -/
theorem c3_insufficient_no_write (db : DB) (f : SaleFields) (nb : Option Nat)
    (hn : normAccount f.account_type f.bank_id = some nb)
    (hq : sumQty db.stockMovements f.warehouse_id f.product_id < f.qty) :
    sale_confirm db f =
      (SaleOutcome.insufficientStock
        (sumQty db.stockMovements f.warehouse_id f.product_id), db) := by
  simp only [sale_confirm, hn]
  rw [if_pos hq]

/-- C3 witness: selling 300 from an empty database fails with available
quantity 0 and returns the empty database unchanged. -/
theorem c3_insufficient_no_write_witness :
    normAccount saleF300u.account_type saleF300u.bank_id = some none ∧
      sumQty emptyDB.stockMovements saleF300u.warehouse_id saleF300u.product_id < saleF300u.qty ∧
      sale_confirm emptyDB saleF300u =
        (SaleOutcome.insufficientStock
          (sumQty emptyDB.stockMovements saleF300u.warehouse_id saleF300u.product_id), emptyDB) :=
  ⟨rfl, by norm_num [saleF300u, emptyDB, sumQty],
    c3_insufficient_no_write emptyDB saleF300u none rfl
      (by norm_num [saleF300u, emptyDB, sumQty])⟩

/-- C10: with the requested quantity exactly equal to the pair's current
stock, `sale_confirm` succeeds (the failure branch fires only on
`available < qty`) and the pair's materialized balance afterwards is
exactly 0. -/
theorem c10_boundary_sale_ok (db : DB) (f : SaleFields) (nb : Option Nat)
    (hn : normAccount f.account_type f.bank_id = some nb)
    (he : sumQty db.stockMovements f.warehouse_id f.product_id = f.qty) :
    (sale_confirm db f).1 = SaleOutcome.ok db.nextSaleId ∧
      stockBalance (sale_confirm db f).2.stocks f.warehouse_id f.product_id = 0 := by
  have hq : ¬ sumQty db.stockMovements f.warehouse_id f.product_id < f.qty := by
    rw [he]
    exact lt_irrefl _
  constructor
  · simp only [sale_confirm, hn, if_neg hq]
  · simp only [sale_confirm, hn, if_neg hq]
    rw [stockBalance_recalc, sumQty_append, he]
    simp [sumQty]

/-- C7: `inc_confirm` performs no stock-sufficiency check — once the
account is resolved it always succeeds; it inserts exactly the Income
row (total = qty * price), appends exactly one StockMovement with delta
`+qty`, appends exactly one MoneyMovement with delta `-total` iff the
expense flag is set, and raises the pair's materialized balance by
`qty`. -/
theorem c7_income_effects (db : DB) (f : IncomeFields) (nb : Option Nat)
    (hn : normAccount f.account_type f.bank_id = some nb)
    (_hq : 0 < f.qty) :
    (inc_confirm db f).1 = IncomeOutcome.ok db.nextIncomeId ∧
      (inc_confirm db f).2.incomes = db.incomes ++
        [{ id := db.nextIncomeId
           supplier_name := f.supplier_name
           supplier_phone := f.supplier_phone
           warehouse_id := f.warehouse_id
           product_id := f.product_id
           qty_kg := f.qty
           price_per_kg := f.price
           total_amount := f.qty * f.price
           delivery_cost := f.delivery
           add_money_entry := f.add_money_entry
           account_type := if f.add_money_entry then f.account_type else AccountType.cash
           bank_id := if f.add_money_entry && isBankAcct f.account_type then nb else none }] ∧
      (inc_confirm db f).2.stockMovements = db.stockMovements ++
        [{ warehouse_id := f.warehouse_id, product_id := f.product_id, qty_kg := f.qty,
           doc_type := DocType.income, doc_id := db.nextIncomeId }] ∧
      (inc_confirm db f).2.moneyMovements =
        (if f.add_money_entry then
          db.moneyMovements ++
            [{ account_type := f.account_type
               bank_id := if isBankAcct f.account_type then nb else none
               amount := -(f.qty * f.price)
               doc_type := DocType.income
               doc_id := db.nextIncomeId }]
         else db.moneyMovements) ∧
      stockBalance (inc_confirm db f).2.stocks f.warehouse_id f.product_id =
        sumQty db.stockMovements f.warehouse_id f.product_id + f.qty := by
  refine ⟨?_, ?_, ?_, ?_, ?_⟩
  · simp only [inc_confirm, hn]
  · simp only [inc_confirm, hn]
  · simp only [inc_confirm, hn]
  · simp only [inc_confirm, hn]
  · simp only [inc_confirm, hn]
    rw [stockBalance_recalc, sumQty_append]
    simp [sumQty]

/-- C7 witness: from the empty database (0 stock), an income of 1000 kg
at price 1 yields a materialized balance of 1000 for the pair. -/
theorem c7_income_effects_witness :
    normAccount incF1000.account_type incF1000.bank_id = some none ∧
      (0 : ℚ) < incF1000.qty ∧
      stockBalance (inc_confirm emptyDB incF1000).2.stocks 1 1 = 1000 := by
  refine ⟨rfl, by norm_num [incF1000], ?_⟩
  have h := (c7_income_effects emptyDB incF1000 none rfl (by norm_num [incF1000])).2.2.2.2
  norm_num [incF1000, emptyDB, sumQty] at h
  exact h

/-- C8: every successfully created Sale stores
`total_amount = qty * price` (delivery_cost is stored in its own column
and, per the code's business rule, not added to the total); the same
total is copied to the mirroring Debtor when unpaid and used as the
MoneyMovement amount when paid. -/
theorem c8_total_formula (db : DB) (f : SaleFields) (nb : Option Nat)
    (hn : normAccount f.account_type f.bank_id = some nb)
    (hq : ¬ sumQty db.stockMovements f.warehouse_id f.product_id < f.qty) :
    ((sale_confirm db f).2.sales.getLast?).map (fun s => s.total_amount) =
        some (f.qty * f.price) ∧
      (f.is_paid = false →
        ((sale_confirm db f).2.debtors.getLast?).map (fun d => d.total_amount) =
          some (f.qty * f.price)) ∧
      (f.is_paid = true →
        ((sale_confirm db f).2.moneyMovements.getLast?).map (fun m => m.amount) =
          some (f.qty * f.price)) := by
  refine ⟨?_, ?_, ?_⟩
  · simp only [sale_confirm, hn, if_neg hq, List.getLast?_concat, Option.map_some']
  · intro hp
    simp only [sale_confirm, hn, if_neg hq, hp, Bool.false_eq_true, if_false,
      List.getLast?_concat, Option.map_some']
  · intro hp
    simp only [sale_confirm, hn, if_neg hq, hp, if_true, List.getLast?_concat,
      Option.map_some']

/-- C8 witness: the unpaid sale of 300 kg at price 2 stores total 600
on the Sale row and on its mirroring open Debtor. -/
theorem c8_total_formula_witness :
    normAccount saleF300u.account_type saleF300u.bank_id = some none ∧
      ¬ sumQty dbInc.stockMovements saleF300u.warehouse_id saleF300u.product_id < saleF300u.qty ∧
      (dbIncSale.sales.getLast?).map (fun s => s.total_amount) = some 600 ∧
      (dbIncSale.debtors.getLast?).map (fun d => d.total_amount) = some 600 := by
  have hq : ¬ sumQty dbInc.stockMovements saleF300u.warehouse_id saleF300u.product_id <
      saleF300u.qty := by
    norm_num [dbInc, inc_confirm, incF1000, emptyDB, normAccount, sumQty, saleF300u]
  have h := c8_total_formula dbInc saleF300u none rfl hq
  have ht : saleF300u.qty * saleF300u.price = 600 := by norm_num [saleF300u]
  have h1 := h.1
  have h2 := h.2.1 rfl
  rw [ht] at h1 h2
  exact ⟨rfl, hq, h1, h2⟩

/-- C10 witness: after an income of 1000, a sale of exactly 1000
succeeds and leaves the pair's balance at 0. -/
theorem c10_boundary_sale_ok_witness :
    normAccount saleF1000u.account_type saleF1000u.bank_id = some none ∧
      sumQty dbInc.stockMovements saleF1000u.warehouse_id saleF1000u.product_id = saleF1000u.qty ∧
      (sale_confirm dbInc saleF1000u).1 = SaleOutcome.ok dbInc.nextSaleId ∧
      stockBalance (sale_confirm dbInc saleF1000u).2.stocks
        saleF1000u.warehouse_id saleF1000u.product_id = 0 := by
  have he : sumQty dbInc.stockMovements saleF1000u.warehouse_id saleF1000u.product_id =
      saleF1000u.qty := by
    norm_num [dbInc, inc_confirm, incF1000, emptyDB, normAccount, sumQty, saleF1000u, saleF300u]
  exact ⟨rfl, he, c10_boundary_sale_ok dbInc saleF1000u none rfl he⟩

/-- C1 counter-evidence: the three-operation sequence income(+1000),
unpaid sale(-300), deleteIncome leaves the committed materialized
balance of pair (1, 1) at -300, a negative stock in a committed state. -/
theorem c1_negative_stock_reachable :
    stockBalance (run negStockOps).stocks 1 1 = -300 ∧
      stockBalance (run negStockOps).stocks 1 1 < 0 := by
  norm_num [negStockOps, run, applyOp, sale_confirm, inc_confirm, cb_inc_del, normAccount,
    incF1000, saleF300u, emptyDB, recalc_stocks, recalc_money_ledger, stockKeys, sumQty,
    stockBalance, isBankAcct]

/-- C4 counter-evidence: deleting income 1 of the income-1000/sale-300
state succeeds unconditionally (the handler has no rollback-blocked
branch at all), removes the Income, and leaves the pair's committed
balance at -300 instead of failing and leaving state unchanged. -/
theorem c4_delete_income_unchecked :
    (cb_inc_del dbIncSale 1).1 = DeleteOutcome.ok ∧
      (cb_inc_del dbIncSale 1).2.incomes = [] ∧
      stockBalance (cb_inc_del dbIncSale 1).2.stocks 1 1 = -300 := by
  refine ⟨?_, ?_, ?_⟩ <;>
    norm_num [dbIncSale, dbInc, sale_confirm, inc_confirm, cb_inc_del, normAccount,
      incF1000, saleF300u, emptyDB, recalc_stocks, recalc_money_ledger, stockKeys, sumQty,
      stockBalance, isBankAcct]

/-- C5 counter-evidence: settling the unpaid sale via the sale button
marks the Sale and the matching Debtor paid and appends exactly one
`money_ledger` cache row for the 600 total, but appends no
`money_movements` row, so the movement-derived cash balance stays 0
instead of increasing by 600; the second call answers already-settled
and changes nothing (that half of the claim holds). -/
theorem c5_settle_writes_no_movement :
    (cb_sale_paid_id dbIncSale 1).1 = SettleOutcome.ok ∧
      dbSettled.sales.map (fun s => s.is_paid) = [true] ∧
      dbSettled.debtors.map (fun d => d.is_paid) = [true] ∧
      dbSettled.moneyMovements = dbIncSale.moneyMovements ∧
      cashBalance dbSettled.moneyMovements = 0 ∧
      dbSettled.moneyLedger = dbIncSale.moneyLedger ++
        [{ direction_in := true, account_type := AccountType.cash, bank_id := none,
           amount := 600 }] ∧
      cb_sale_paid_id dbSettled 1 = (SettleOutcome.alreadySettled, dbSettled) := by
  refine ⟨?_, ?_, ?_, ?_, ?_, ?_, ?_⟩ <;>
    norm_num [dbSettled, dbIncSale, dbInc, sale_confirm, inc_confirm, cb_sale_paid_id,
      markFirstDebtorPaid, normAccount, incF1000, saleF300u, emptyDB, recalc_stocks,
      recalc_money_ledger, stockKeys, sumQty, cashBalance, isBankAcct]

/-- C6 counter-evidence: deleting the unpaid sale removes the Sale row,
its movements — but not its Debtor: afterwards no Sale exists while one
open Debtor with total 600 remains, so an open Debtor exists with no
corresponding unpaid Sale. -/
theorem c6_deleted_sale_leaves_open_debtor :
    (cb_sale_del dbIncSale 1).1 = DeleteOutcome.ok ∧
      (cb_sale_del dbIncSale 1).2.sales = [] ∧
      (cb_sale_del dbIncSale 1).2.debtors.map (fun d => (d.is_paid, d.total_amount)) =
        [(false, 600)] := by
  refine ⟨?_, ?_, ?_⟩ <;>
    norm_num [dbIncSale, dbInc, sale_confirm, inc_confirm, cb_sale_del, normAccount,
      incF1000, saleF300u, emptyDB, recalc_stocks, recalc_money_ledger, stockKeys, sumQty,
      isBankAcct]

end Sklad
